import Mathlib

/-!
Shallow embedding of the shifts Redux slice (`src/store/store.ts`, which contains
both the envelope revision and the bare-array revision of `shiftsSlice`) and of the
geolocation service (`src/utils/geolocationService.ts`) of the working-hands mobile
client, together with proofs settling the specification's claims.
-/

namespace WorkingHands

/-- JavaScript `v || d` on an optional string: `undefined`/`null` and `""` are falsy. -/
def jsOr : Option String → String → String
  | some s, d => if s = "" then d else s
  | none, d => d

/-- Decimal digits of `n`, little-endian, `[]` for `0`; structured on a fuel argument so
that it reduces in the kernel. Agrees with `Nat.digits 10` (see `digitsLE_eq_digits`). -/
def digitsLE : Nat → Nat → List Nat
  | 0, _ => []
  | fuel + 1, n => if n = 0 then [] else n % 10 :: digitsLE fuel (n / 10)

/-- Decimal rendering of a natural number, modelling JavaScript number-to-string
conversion of a nonnegative integer (as it happens inside template literals). -/
def natDec (n : Nat) : String :=
  if n = 0 then "0" else ⟨(digitsLE n n).reverse.map Nat.digitChar⟩

/-- JavaScript `hay.includes(needle)` on strings. -/
def jsIncludes (hay needle : String) : Bool := decide (needle.data <:+: hay.data)

/-! ### Data model (`src/types/index.ts`) -/

/-- `WorkType` of `src/types/index.ts`; JS numbers are modelled by `ℚ`. -/
structure WorkType where
  id : ℚ
  name : String
  nameGt5 : String
  nameLt5 : String
  nameOne : String
deriving DecidableEq

/-- `Coordinates` of `src/types/index.ts` (the pair embedded in a shift record). -/
structure Coordinates where
  longitude : ℚ
  latitude : ℚ
deriving DecidableEq

/-- All fields of `Shift` of `src/types/index.ts` except `id`; bundled so that the
spread `{...shift, id}` in the thunk is a single field copy. -/
structure ShiftFields where
  logo : String
  coordinates : Coordinates
  address : String
  companyName : String
  dateStartByCity : String
  timeStartByCity : String
  timeEndByCity : String
  currentWorkers : ℚ
  planWorkers : ℚ
  workTypes : List WorkType
  priceWorker : ℚ
  bonusPriceWorker : ℚ
  customerFeedbacksCount : String
  customerRating : Option ℚ
  isPromotionEnabled : Bool
deriving DecidableEq

/-- `Shift` of `src/types/index.ts`: a normalized record, `id` always present. -/
structure Shift where
  id : String
  fields : ShiftFields
deriving DecidableEq

/-- A shift object as it arrives in the response body: `id` may be absent (`none`)
or present (possibly the empty string, which JavaScript treats as falsy). -/
structure RawShift where
  id : Option String
  fields : ShiftFields
deriving DecidableEq

/-- A concrete all-default field bundle used for concrete evaluations. -/
def sampleFields : ShiftFields :=
  ⟨"", ⟨0, 0⟩, "", "", "", "", "", 0, 0, [], 0, 0, "", none, false⟩

/-- `ShiftsState` of `src/types/index.ts`: the Redux slice state. -/
structure ShiftsState where
  data : List Shift
  loading : Bool
  error : Option String
  selectedShift : Option Shift
deriving DecidableEq

/-- `initialState` of `shiftsSlice` (`src/store/store.ts` lines 90–95). -/
def initialState : ShiftsState :=
  { data := [], loading := false, error := none, selectedShift := none }

/-! ### The `fetchShifts` thunk (`src/store/store.ts` lines 29–88 and 143–182) -/

/-- Synthesized id `shift_${index}_${Date.now()}` (`src/store/store.ts` line 58). -/
def synthId (i t : Nat) : String := "shift_" ++ natDec i ++ "_" ++ natDec t

/-- The id-assignment map over `shiftsArray` with running index `i`: each element is
spread unchanged except that a falsy `id` is replaced by the synthesized one; `now j` is
the `Date.now()` reading observed while element `j` is processed (`src/store/store.ts`
lines 56–59). -/
def assignIdsFrom (now : Nat → Nat) (i : Nat) : List RawShift → List Shift
  | [] => []
  | r :: rs => ⟨jsOr r.id (synthId i (now i)), r.fields⟩ :: assignIdsFrom now (i + 1) rs

/-- Id normalization over a whole batch, starting at index `0`. -/
def assignIds (now : Nat → Nat) (l : List RawShift) : List Shift := assignIdsFrom now 0 l

/-- Shape of the parsed JSON response body: a bare array of shift objects, or an
envelope object whose `data` field holds the array. -/
inductive JsonBody where
  | arr (shifts : List RawShift)
  | envelope (shifts : List RawShift)
deriving DecidableEq

/-- The error value caught by the thunk's `catch` clause: either an `AbortError`
(recognised by its `name`; its message is irrelevant to the envelope revision) or an
ordinary `Error` carrying a message. -/
inductive JsError where
  | abortError (msg : String)
  | err (msg : String)
deriving DecidableEq

/-- Outcome of the single awaited `fetch` + `response.json()` of one thunk run:
an HTTP response with a parsed body, an abort fired by the 10 s timeout, a network
layer failure, or a JSON parse failure (each failure carrying its JS error message). -/
inductive NetOutcome where
  | response (status : Nat) (body : JsonBody)
  | abort (msg : String)
  | fetchFailed (msg : String)
  | jsonFailed (msg : String)
deriving DecidableEq

/-- JavaScript `response.ok`: status in the 2xx range. -/
def responseOk (status : Nat) : Bool := decide (200 ≤ status ∧ status < 300)

/-- `data.data || []` of the envelope revision (`src/store/store.ts` line 54): reading
property `data` of a bare array yields `undefined`, hence the empty list. -/
def extractEnvelope : JsonBody → List RawShift
  | .envelope l => l
  | .arr _ => []

/-- The try-block of the envelope revision of the thunk (`src/store/store.ts`
lines 32–61): one request, `response.ok` check throwing `HTTP error! status: ...`,
envelope extraction, id assignment. -/
def tryFetchEnvelope (now : Nat → Nat) : NetOutcome → Except JsError (List Shift)
  | .response status body =>
      if responseOk status then .ok (assignIds now (extractEnvelope body))
      else .error (.err ("HTTP error! status: " ++ natDec status))
  | .abort msg => .error (.abortError msg)
  | .fetchFailed msg => .error (.err msg)
  | .jsonFailed msg => .error (.err msg)

/-- The catch-block of the envelope revision (`src/store/store.ts` lines 62–86):
classification of the caught error into the user-facing rejection message. -/
def catchEnvelope : JsError → String
  | .abortError _ => "Request timed out. Please check your internet connection and try again."
  | .err msg =>
      if jsIncludes msg "Network" then
        "Network error. Please check your internet connection and try again."
      else if jsIncludes msg "HTTP error" then
        "Server error: " ++ msg ++ ". Please try again later."
      else if jsIncludes msg "JSON" then
        "Invalid server response. Please try again later."
      else msg

/-- The envelope revision of `fetchShifts` (`src/store/store.ts` lines 29–88), as a
function from the network outcome to the fulfilled payload or the rejection message. -/
def fetchShiftsEnvelope (now : Nat → Nat) (o : NetOutcome) : Except String (List Shift) :=
  match tryFetchEnvelope now o with
  | .ok l => .ok l
  | .error e => .error (catchEnvelope e)

/-- The bare-array revision of `fetchShifts` (`src/store/store.ts` lines 143–182):
`data.map(...)` succeeds only on a bare array; on an envelope object it throws
`TypeError: data.map is not a function`, and the catch clause forwards `error.message`
unclassified. -/
def fetchShiftsBare (now : Nat → Nat) (o : NetOutcome) : Except String (List Shift) :=
  match o with
  | .response status body =>
      if responseOk status then
        match body with
        | .arr l => .ok (assignIds now l)
        | .envelope _ => .error "data.map is not a function"
      else .error ("HTTP error! status: " ++ natDec status)
  | .abort msg => .error msg
  | .fetchFailed msg => .error msg
  | .jsonFailed msg => .error msg

/-- Number of HTTP requests one run of the thunk issues: the body of `fetchShifts`
contains a single `fetch` call and no loop (`src/store/store.ts` lines 38–44), so every
run consumes exactly one request regardless of its outcome. -/
def fetchRequestCount (_ : NetOutcome) : Nat := 1

/-- A raw shift carries a usable id when `id` is present and truthy (non-empty). -/
def rawHasId (r : RawShift) : Bool :=
  match r.id with
  | some s => decide (s ≠ "")
  | none => false

/-- Forgetful map from a normalized record back to the wire shape. -/
def shiftToRaw (s : Shift) : RawShift := ⟨some s.id, s.fields⟩

/-! ### The reducers (`src/store/store.ts` lines 97–132) -/

/-- Actions handled by `shiftsSlice`: the three plain reducers plus the three
lifecycle actions of the `fetchShifts` thunk. A rejected action's payload is `none`
when the thunk rejected without `rejectWithValue`. -/
inductive ShiftsAction where
  | setSelectedShift (payload : Option Shift)
  | clearError
  | clearShifts
  | pending
  | fulfilled (payload : List Shift)
  | rejected (payload : Option String)
deriving DecidableEq

/-- The slice reducer (`src/store/store.ts` lines 100–131), applied in the order the
actions reach the store. -/
def shiftsReducer (st : ShiftsState) : ShiftsAction → ShiftsState
  | .setSelectedShift payload => { st with selectedShift := payload }
  | .clearError => { st with error := none }
  | .clearShifts => { st with data := [], selectedShift := none, error := none }
  | .pending => { st with loading := true, error := none }
  | .fulfilled payload => { st with loading := false, data := payload, error := none }
  | .rejected payload =>
      { st with loading := false, error := some (jsOr payload "Failed to fetch shifts"),
                data := [] }

/-- A state is reachable when some dispatch sequence produces it from `initialState`. -/
def reachable (st : ShiftsState) : Prop :=
  ∃ acts : List ShiftsAction, st = List.foldl shiftsReducer initialState acts

/-- The spec's derived `FetchState.status`. -/
inductive FetchStatus where
  | idle
  | loading
  | success
  | error
deriving DecidableEq

/-- Status abstraction of the slice state, mirroring the spec's `FetchState` lifecycle:
a set error reason means `error`, an in-flight request (`loading` flag) means `loading`,
data present means `success`, otherwise `idle`. -/
def fetchStatus (st : ShiftsState) : FetchStatus :=
  if st.error.isSome then .error
  else if st.loading then .loading
  else if st.data.isEmpty then .idle
  else .success

/-- One complete, uninterleaved dispatch of the envelope-revision thunk: `pending` at
issuance, then `fulfilled` or `rejected` according to the network outcome. -/
def dispatchFetch (now : Nat → Nat) (st : ShiftsState) (o : NetOutcome) : ShiftsState :=
  let st1 := shiftsReducer st .pending
  match fetchShiftsEnvelope now o with
  | .ok shifts => shiftsReducer st1 (.fulfilled shifts)
  | .error msg => shiftsReducer st1 (.rejected (some msg))

/-! ### Geolocation service (`src/utils/geolocationService.ts`) -/

/-- Permission statuses returned by the `react-native-permissions` API. -/
inductive PermStatus where
  | unavailable
  | denied
  | granted
  | blocked
  | limited
deriving DecidableEq

/-- `LocationCoordinates` of the geolocation service; device latitude and longitude
are modelled as real numbers. -/
structure LocationCoordinates where
  latitude : ℝ
  longitude : ℝ

/-- Outcome of one `Geolocation.getCurrentPosition` call: a position delivered to the
success callback, or a numeric error code delivered to the failure callback. -/
inductive PosOutcome where
  | ok (coords : LocationCoordinates)
  | err (code : Nat)

/-- Environment observed by one `getCurrentLocation` attempt: the result of `check`,
the result of `request`, and the outcome of the position query. -/
structure GeoEnv where
  check : PermStatus
  request : PermStatus
  position : PosOutcome

/-- `LocationResult` of the geolocation service. -/
structure LocationResult where
  success : Bool
  coordinates : Option LocationCoordinates := none
  error : Option String := none

/-- `hasLocationPermission` (`src/utils/geolocationService.ts` lines 49–57): true
exactly when `check` resolves to `granted`. -/
def hasLocationPermission (env : GeoEnv) : Bool := decide (env.check = .granted)

/-- `requestLocationPermission` (`src/utils/geolocationService.ts` lines 62–70): true
exactly when `request` resolves to `granted`. -/
def requestLocationPermission (env : GeoEnv) : Bool := decide (env.request = .granted)

/-- The error message chosen by the failure callback's `switch` on the error code
(`src/utils/geolocationService.ts` lines 103–121). -/
def positionErrorMessage (code : Nat) : String :=
  if code = 1 then "Location permission denied"
  else if code = 2 then "Location unavailable"
  else if code = 3 then "Location request timed out"
  else if code = 4 then "Google Play services not available"
  else if code = 5 then "Location settings not satisfied"
  else "Failed to get location"

/-- Resolution of the `Geolocation.getCurrentPosition` callbacks into a
`LocationResult` (`src/utils/geolocationService.ts` lines 92–129). -/
def posResult : PosOutcome → LocationResult
  | .ok c => { success := true, coordinates := some c }
  | .err code => { success := false, error := some (positionErrorMessage code) }

/-- `getCurrentLocation` (`src/utils/geolocationService.ts` lines 75–131), returning
the resolved result together with the number of permission prompts performed (the
number of `request` calls: 0 when `check` already granted, otherwise 1). -/
def getCurrentLocation (env : GeoEnv) : LocationResult × Nat :=
  if hasLocationPermission env then (posResult env.position, 0)
  else if requestLocationPermission env then (posResult env.position, 1)
  else ({ success := false, error := some "Location permission denied" }, 1)

/-- Observable trace of one `getLocationWithRetry` run: the returned result, the
backoff delays awaited between attempts (in milliseconds, in order), the total number
of permission prompts, and the number of `getCurrentLocation` attempts performed. -/
structure RetryTrace where
  result : LocationResult
  delays : List Nat
  prompts : Nat
  attempts : Nat

/-- The loop body of `getLocationWithRetry` (`src/utils/geolocationService.ts`
lines 205–220): `i` is the loop counter, the last argument the remaining iterations
(`maxRetries - i`), `lastError` the last failure message, `delays` and `prompts` the
trace accumulated so far; `envs j` is the environment observed by attempt `j`. -/
def retryGo (envs : Nat → GeoEnv) (maxRetries : Nat) (i : Nat) :
    Nat → Option String → List Nat → Nat → RetryTrace
  | 0, lastError, delays, prompts =>
      ⟨{ success := false,
         error := some (jsOr lastError "Failed to get location after multiple attempts") },
       delays, prompts, i⟩
  | remaining + 1, _, delays, prompts =>
      let r := getCurrentLocation (envs i)
      if r.1.success then ⟨r.1, delays, prompts + r.2, i + 1⟩
      else
        retryGo envs maxRetries (i + 1) remaining r.1.error
          (if i < maxRetries - 1 then delays ++ [2 ^ i * 1000] else delays)
          (prompts + r.2)

/-- `getLocationWithRetry` (`src/utils/geolocationService.ts` lines 202–226),
instrumented to record delays, prompts and attempts. -/
def getLocationWithRetry (envs : Nat → GeoEnv) (maxRetries : Nat) : RetryTrace :=
  retryGo envs maxRetries 0 maxRetries none [] 0

/-! ### Haversine distance (`src/utils/geolocationService.ts` lines 139–178) -/

/-- `toRad` (`src/utils/geolocationService.ts` lines 176–178). -/
noncomputable def toRad (degrees : ℝ) : ℝ := degrees * (Real.pi / 180)

open Classical in
/-- Real-number model of JavaScript `Math.atan2`. -/
noncomputable def atan2 (y x : ℝ) : ℝ :=
  if 0 < x then Real.arctan (y / x)
  else if x < 0 ∧ 0 ≤ y then Real.arctan (y / x) + Real.pi
  else if x < 0 ∧ y < 0 then Real.arctan (y / x) - Real.pi
  else if x = 0 ∧ 0 < y then Real.pi / 2
  else if x = 0 ∧ y < 0 then -(Real.pi / 2)
  else 0

/-- Unit tag of a `DistanceResult`. -/
inductive DistUnit where
  | km
  | m
deriving DecidableEq

/-- `DistanceResult` of the geolocation service. The `formatted` display string is
modelled by the numeric value it shows: `Math.round(distance * 1000)` metres in the
metre branch, the distance rounded to one decimal in the kilometre branch. -/
structure DistanceResult where
  distance : ℝ
  unit : DistUnit
  formattedValue : ℝ

/-- The intermediate `a` of the Haversine computation (`src/utils/geolocationService.ts`
lines 150–152). -/
noncomputable def haversineA (coords1 coords2 : LocationCoordinates) : ℝ :=
  Real.sin (toRad (coords2.latitude - coords1.latitude) / 2) *
      Real.sin (toRad (coords2.latitude - coords1.latitude) / 2) +
    Real.sin (toRad (coords2.longitude - coords1.longitude) / 2) *
        Real.sin (toRad (coords2.longitude - coords1.longitude) / 2) *
        Real.cos (toRad coords1.latitude) *
        Real.cos (toRad coords2.latitude)

open Classical in
/-- `calculateDistance` (`src/utils/geolocationService.ts` lines 139–171). -/
noncomputable def calculateDistance (coords1 coords2 : LocationCoordinates) :
    DistanceResult :=
  let a := haversineA coords1 coords2
  let c := 2 * atan2 (Real.sqrt a) (Real.sqrt (1 - a))
  let distance := 6371 * c
  if distance < 1 then
    ⟨distance * 1000, .m, ((round (distance * 1000) : ℤ) : ℝ)⟩
  else
    ⟨distance, .km, ((round (distance * 10) : ℤ) : ℝ) / 10⟩

/-- `isValidCoordinates` (`src/utils/geolocationService.ts` lines 190–197). -/
def isValidCoordinates (coords : LocationCoordinates) : Prop :=
  -90 ≤ coords.latitude ∧ coords.latitude ≤ 90 ∧
    -180 ≤ coords.longitude ∧ coords.longitude ≤ 180

/-! ## Theorems -/

theorem jsOr_some_ne (s d : String) (h : s ≠ "") : jsOr (some s) d = s := by
  simp [jsOr, h]

/-- Claim C10: `clearShifts` empties the record list, clears the selected shift and the
error reason, and leaves the loading flag unchanged. -/
theorem clearShifts_resets_state (st : ShiftsState) :
    (shiftsReducer st .clearShifts).data = [] ∧
    (shiftsReducer st .clearShifts).selectedShift = none ∧
    (shiftsReducer st .clearShifts).error = none ∧
    (shiftsReducer st .clearShifts).loading = st.loading := by
  simp [shiftsReducer]

/-- Claim C1, evaluated at the failing interleaving: request A is issued, request B is
issued, B's response arrives, then A's late response arrives; the reducer keeps A's
stale payload, so the final records are A's, not B's as the ordering guarantee
requires. -/
theorem stale_response_overwrites_newer :
    (List.foldl shiftsReducer initialState
        [.pending, .pending, .fulfilled [⟨"b", sampleFields⟩],
          .fulfilled [⟨"a", sampleFields⟩]]).data = [⟨"a", sampleFields⟩] ∧
    (⟨"a", sampleFields⟩ : Shift) ≠ ⟨"b", sampleFields⟩ := by
  exact ⟨rfl, by decide⟩

/-- Claim C6: when the 10-second timeout aborts the request, the dispatch ends with
status error, the rejection reason is the fixed timed-out message (which contains
"timed out"), and the record list is empty. -/
theorem fetch_timeout_error_state (st : ShiftsState) (now : Nat → Nat) (msg : String) :
    fetchStatus (dispatchFetch now st (.abort msg)) = .error ∧
    (dispatchFetch now st (.abort msg)).error =
      some "Request timed out. Please check your internet connection and try again." ∧
    ("timed out".data <:+:
      "Request timed out. Please check your internet connection and try again.".data) ∧
    (dispatchFetch now st (.abort msg)).data = [] := by
  refine ⟨?_, ?_, by decide, ?_⟩ <;>
    simp [dispatchFetch, fetchShiftsEnvelope, tryFetchEnvelope, catchEnvelope,
      shiftsReducer, jsOr, fetchStatus]

theorem shiftsReducer_error_inv (st : ShiftsState) (a : ShiftsAction)
    (h : st.error ≠ none → st.loading = false ∧ st.data = []) :
    (shiftsReducer st a).error ≠ none →
      (shiftsReducer st a).loading = false ∧ (shiftsReducer st a).data = [] := by
  cases a <;> first
    | (simp [shiftsReducer]; exact h)
    | simp [shiftsReducer]

theorem foldl_error_inv (acts : List ShiftsAction) (st : ShiftsState)
    (h : st.error ≠ none → st.loading = false ∧ st.data = []) :
    (List.foldl shiftsReducer st acts).error ≠ none →
      (List.foldl shiftsReducer st acts).loading = false ∧
        (List.foldl shiftsReducer st acts).data = [] := by
  induction acts generalizing st with
  | nil => exact h
  | cons a rest ih => exact ih (shiftsReducer st a) (shiftsReducer_error_inv st a h)

/-- Claim C8 (amended): in every reachable state, a set error reason forces status
error with an empty record list; non-empty records force status success or loading
(loading occurs when a refetch is issued while previous records are held); and status
idle has empty records. -/
theorem reachable_state_shape (st : ShiftsState) (h : reachable st) :
    (st.error.isSome = true → fetchStatus st = .error ∧ st.data = []) ∧
    (st.data ≠ [] → fetchStatus st = .success ∨ fetchStatus st = .loading) ∧
    (fetchStatus st = .idle → st.data = []) := by
  obtain ⟨acts, rfl⟩ := h
  have hinv := foldl_error_inv acts initialState (by simp [initialState])
  refine ⟨?_, ?_, ?_⟩
  · intro he
    have h2 := hinv (Option.isSome_iff_ne_none.mp he)
    exact ⟨by simp [fetchStatus, he], h2.2⟩
  · intro hd
    have he : (List.foldl shiftsReducer initialState acts).error = none := by
      by_contra hne
      exact hd (hinv hne).2
    cases hl : (List.foldl shiftsReducer initialState acts).loading
    · left
      simp [fetchStatus, he, hl, List.isEmpty_iff, hd]
    · right
      simp [fetchStatus, he, hl]
  · intro hidle
    by_contra hd
    cases herr : (List.foldl shiftsReducer initialState acts).error with
    | some e => simp [fetchStatus, herr] at hidle
    | none =>
      cases hl : (List.foldl shiftsReducer initialState acts).loading
      · simp [fetchStatus, herr, hl, List.isEmpty_iff, hd] at hidle
      · simp [fetchStatus, herr, hl] at hidle

/-- Witness for claim C8's amended invariant at the initial state. -/
theorem reachable_state_shape_witness :
    reachable initialState ∧
    ((initialState.error.isSome = true →
        fetchStatus initialState = .error ∧ initialState.data = []) ∧
      (initialState.data ≠ [] →
        fetchStatus initialState = .success ∨ fetchStatus initialState = .loading) ∧
      (fetchStatus initialState = .idle → initialState.data = [])) :=
  ⟨⟨[], rfl⟩, reachable_state_shape initialState ⟨[], rfl⟩⟩

/-- Claim C8, counterexample: dispatching a refetch after a successful fetch yields a
reachable state whose record list is non-empty while the derived status is loading,
not success. -/
theorem loading_state_with_records :
    ((List.foldl shiftsReducer initialState
        [.pending, .fulfilled [⟨"a", sampleFields⟩], .pending]).data ≠ []) ∧
    fetchStatus (List.foldl shiftsReducer initialState
        [.pending, .fulfilled [⟨"a", sampleFields⟩], .pending]) = .loading ∧
    fetchStatus (List.foldl shiftsReducer initialState
        [.pending, .fulfilled [⟨"a", sampleFields⟩], .pending]) ≠ .success := by
  decide

theorem assignIdsFrom_roundtrip (now : Nat → Nat) (l : List RawShift) :
    ∀ i, (∀ r ∈ l, rawHasId r = true) →
      (assignIdsFrom now i l).map shiftToRaw = l := by
  induction l with
  | nil => intro i _; rfl
  | cons r rs ih =>
    intro i h
    have hr := h r (by simp)
    obtain ⟨s, hs, hne⟩ : ∃ s, r.id = some s ∧ s ≠ "" := by
      cases hid : r.id with
      | none => simp [rawHasId, hid] at hr
      | some s => exact ⟨s, rfl, by simpa [rawHasId, hid] using hr⟩
    have hrec := ih (i + 1) (fun x hx => h x (by simp [hx]))
    have hr' : (⟨some s, r.fields⟩ : RawShift) = r := by
      cases r
      simp_all
    simp [assignIdsFrom, shiftToRaw, jsOr_some_ne s _ hne, hs, hrec, hr']

/-- Claim C4 (amended): each revision extracts the record array only from its own
response shape. The envelope revision returns the `data` array of an envelope body but
the empty list for a bare array; the bare-array revision returns a bare array but
rejects an envelope body; and on the supported shape the normalized records are exactly
the records sent (present ids preserved). -/
theorem shape_tolerance_per_version (l : List RawShift) (now : Nat → Nat)
    (h : ∀ r ∈ l, rawHasId r = true) :
    fetchShiftsEnvelope now (.response 200 (.envelope l)) = .ok (assignIds now l) ∧
    fetchShiftsBare now (.response 200 (.arr l)) = .ok (assignIds now l) ∧
    (assignIds now l).map shiftToRaw = l ∧
    fetchShiftsEnvelope now (.response 200 (.arr l)) = .ok [] ∧
    fetchShiftsBare now (.response 200 (.envelope l)) =
      .error "data.map is not a function" := by
  refine ⟨?_, ?_, assignIdsFrom_roundtrip now l 0 h, ?_, ?_⟩ <;>
    simp [fetchShiftsEnvelope, tryFetchEnvelope, fetchShiftsBare, extractEnvelope,
      responseOk, assignIds, assignIdsFrom]

/-- Witness for claim C4's amended statement on a one-record batch with id "a". -/
theorem shape_tolerance_per_version_witness :
    (∀ r ∈ [(⟨some "a", sampleFields⟩ : RawShift)], rawHasId r = true) ∧
    (fetchShiftsEnvelope (fun _ => 0)
        (.response 200 (.envelope [⟨some "a", sampleFields⟩])) =
          .ok (assignIds (fun _ => 0) [⟨some "a", sampleFields⟩]) ∧
      fetchShiftsBare (fun _ => 0) (.response 200 (.arr [⟨some "a", sampleFields⟩])) =
        .ok (assignIds (fun _ => 0) [⟨some "a", sampleFields⟩]) ∧
      (assignIds (fun _ => 0) [⟨some "a", sampleFields⟩]).map shiftToRaw =
        [⟨some "a", sampleFields⟩] ∧
      fetchShiftsEnvelope (fun _ => 0) (.response 200 (.arr [⟨some "a", sampleFields⟩])) =
        .ok [] ∧
      fetchShiftsBare (fun _ => 0) (.response 200 (.envelope [⟨some "a", sampleFields⟩])) =
        .error "data.map is not a function") :=
  ⟨by decide, shape_tolerance_per_version _ _ (by decide)⟩

/-- Claim C4, counterexample: the envelope revision applied to a successful response
whose body is a bare one-record array yields the empty list, not the array sent. -/
theorem envelope_version_drops_bare_array :
    fetchShiftsEnvelope (fun _ => 0) (.response 200 (.arr [⟨some "a", sampleFields⟩])) =
      .ok [] ∧
    (Except.ok [] : Except String (List Shift)) ≠ .ok [⟨"a", sampleFields⟩] := by
  exact ⟨rfl, by simp⟩

theorem strData_app (a b : String) : (a ++ b).data = a.data ++ b.data := rfl

theorem string_append_ne_empty (a b : String) (h : a ≠ "") : a ++ b ≠ "" := by
  intro he
  apply h
  have hd := congrArg String.data he
  rw [strData_app] at hd
  have h2 : a.data ++ b.data = [] := hd
  exact String.ext (List.append_eq_nil.mp h2).1

theorem digitsLE_lt_ten (fuel : Nat) : ∀ n d, d ∈ digitsLE fuel n → d < 10 := by
  induction fuel with
  | zero => intro n d hd; simp [digitsLE] at hd
  | succ f ih =>
    intro n d hd
    by_cases hn : n = 0
    · simp [digitsLE, hn] at hd
    · simp only [digitsLE, if_neg hn, List.mem_cons] at hd
      rcases hd with h | h
      · subst h
        exact Nat.mod_lt n (by norm_num)
      · exact ih _ _ h

theorem natDec_char_digit {n : Nat} {c : Char} (hc : c ∈ (natDec n).data) :
    ∃ d, d < 10 ∧ c = Nat.digitChar d := by
  by_cases hn : n = 0
  · refine ⟨0, by norm_num, ?_⟩
    have h0 : (natDec n).data = ['0'] := by rw [hn]; rfl
    rw [h0] at hc
    simp at hc
    rw [hc]
    rfl
  · have hd : (natDec n).data = (digitsLE n n).reverse.map Nat.digitChar := by
      simp [natDec, hn]
    rw [hd] at hc
    simp only [List.mem_map, List.mem_reverse] at hc
    obtain ⟨d, hdm, rfl⟩ := hc
    exact ⟨d, digitsLE_lt_ten n n d hdm, rfl⟩

theorem natDec_chars_tame {n : Nat} {c : Char} (hc : c ∈ (natDec n).data) :
    c ≠ 'w' ∧ c ≠ '_' := by
  obtain ⟨d, hd, rfl⟩ := natDec_char_digit hc
  have hall : ∀ d, d < 10 → Nat.digitChar d ≠ 'w' ∧ Nat.digitChar d ≠ '_' := by decide
  exact hall d hd

theorem httpMsg_no_network (status : Nat) :
    jsIncludes ("HTTP error! status: " ++ natDec status) "Network" = false := by
  rw [jsIncludes, decide_eq_false_iff_not]
  intro hinf
  have hw : ('w' : Char) ∈ ("HTTP error! status: " ++ natDec status).data :=
    hinf.subset (by decide)
  rw [strData_app] at hw
  rcases List.mem_append.mp hw with h | h
  · revert h
    decide
  · exact absurd rfl (natDec_chars_tame h).1

theorem httpMsg_has_http_error (status : Nat) :
    jsIncludes ("HTTP error! status: " ++ natDec status) "HTTP error" = true := by
  rw [jsIncludes]
  refine decide_eq_true ?_
  refine ⟨[], "! status: ".data ++ (natDec status).data, ?_⟩
  rw [strData_app]
  rw [show ("HTTP error! status: " : String).data =
    "HTTP error".data ++ "! status: ".data from rfl]
  simp [List.append_assoc]

/-- Claim C7: a non-2xx response makes the dispatch end with status error, a reason
string that embeds the numeric status code, an empty record list, and exactly one HTTP
request issued (no automatic retry). -/
theorem http_error_state (st : ShiftsState) (now : Nat → Nat) (status : Nat)
    (body : JsonBody) (h : responseOk status = false) :
    (dispatchFetch now st (.response status body)).error =
      some ("Server error: " ++ ("HTTP error! status: " ++ natDec status) ++
        ". Please try again later.") ∧
    fetchStatus (dispatchFetch now st (.response status body)) = .error ∧
    ((natDec status).data <:+:
      ("Server error: " ++ ("HTTP error! status: " ++ natDec status) ++
        ". Please try again later.").data) ∧
    (dispatchFetch now st (.response status body)).data = [] ∧
    fetchRequestCount (.response status body) = 1 := by
  have hmsg : fetchShiftsEnvelope now (.response status body) =
      .error ("Server error: " ++ ("HTTP error! status: " ++ natDec status) ++
        ". Please try again later.") := by
    simp [fetchShiftsEnvelope, tryFetchEnvelope, h, catchEnvelope,
      httpMsg_no_network, httpMsg_has_http_error]
  have hne : ("Server error: " ++ ("HTTP error! status: " ++ natDec status) ++
      ". Please try again later.") ≠ "" :=
    string_append_ne_empty _ _ (string_append_ne_empty _ _ (by decide))
  refine ⟨?_, ?_, ?_, ?_, rfl⟩
  · simp [dispatchFetch, hmsg, shiftsReducer, jsOr_some_ne _ _ hne]
  · simp [dispatchFetch, hmsg, shiftsReducer, fetchStatus]
  · refine ⟨"Server error: HTTP error! status: ".data,
      ". Please try again later.".data, ?_⟩
    rw [strData_app, strData_app]
    rw [show ("Server error: HTTP error! status: " : String).data =
      "Server error: ".data ++ "HTTP error! status: ".data from rfl]
    rw [show (("HTTP error! status: " ++ natDec status : String)).data =
      "HTTP error! status: ".data ++ (natDec status).data from rfl]
    simp [List.append_assoc]
  · simp [dispatchFetch, hmsg, shiftsReducer]

/-- Witness for claim C7 at an HTTP 500 response. -/
theorem http_error_state_witness :
    responseOk 500 = false ∧
    ((dispatchFetch (fun _ => 0) initialState (.response 500 (.envelope []))).error =
        some ("Server error: " ++ ("HTTP error! status: " ++ natDec 500) ++
          ". Please try again later.") ∧
      fetchStatus (dispatchFetch (fun _ => 0) initialState
        (.response 500 (.envelope []))) = .error ∧
      ((natDec 500).data <:+:
        ("Server error: " ++ ("HTTP error! status: " ++ natDec 500) ++
          ". Please try again later.").data) ∧
      (dispatchFetch (fun _ => 0) initialState (.response 500 (.envelope []))).data = [] ∧
      fetchRequestCount (.response 500 (.envelope [])) = 1) :=
  ⟨rfl, http_error_state initialState (fun _ => 0) 500 (.envelope []) rfl⟩

theorem digitsLE_eq_digits : ∀ fuel n, n ≤ fuel → digitsLE fuel n = Nat.digits 10 n := by
  intro fuel
  induction fuel with
  | zero =>
    intro n hn
    have : n = 0 := Nat.le_zero.mp hn
    simp [digitsLE, this]
  | succ f ih =>
    intro n hn
    by_cases h0 : n = 0
    · simp [digitsLE, h0]
    · rw [show digitsLE (f + 1) n = n % 10 :: digitsLE f (n / 10) by
        simp [digitsLE, h0]]
      rw [Nat.digits_def' (by norm_num : (1 : ℕ) < 10) (Nat.pos_of_ne_zero h0)]
      have hlt : n / 10 < n := Nat.div_lt_self (Nat.pos_of_ne_zero h0) (by norm_num)
      rw [ih (n / 10) (by omega)]

theorem map_digitChar_inj : ∀ (l1 l2 : List Nat), (∀ d ∈ l1, d < 10) →
    (∀ d ∈ l2, d < 10) → l1.map Nat.digitChar = l2.map Nat.digitChar → l1 = l2 := by
  intro l1
  induction l1 with
  | nil =>
    intro l2 _ _ h
    cases l2 with
    | nil => rfl
    | cons b t2 => simp at h
  | cons a t ih =>
    intro l2 h1 h2 h
    cases l2 with
    | nil => simp at h
    | cons b t2 =>
      simp only [List.map_cons, List.cons.injEq] at h
      obtain ⟨hab, ht⟩ := h
      have hdec : ∀ x, x < 10 → ∀ y, y < 10 → Nat.digitChar x = Nat.digitChar y →
          x = y := by decide
      have hab' : a = b := hdec a (h1 a (by simp)) b (h2 b (by simp)) hab
      rw [hab', ih t2 (fun d hd => h1 d (by simp [hd])) (fun d hd => h2 d (by simp [hd])) ht]

theorem natDec_data_of_ne {n : Nat} (hn : n ≠ 0) :
    (natDec n).data = (digitsLE n n).reverse.map Nat.digitChar := by
  simp [natDec, hn]

theorem digits_of_rev_map_eq {n : Nat} {l : List Nat}
    (hl : ∀ d ∈ l, d < 10)
    (h : (digitsLE n n).reverse.map Nat.digitChar = l.map Nat.digitChar) :
    Nat.digits 10 n = l.reverse := by
  have h1 : (digitsLE n n).reverse = l :=
    map_digitChar_inj _ _
      (fun d hd => digitsLE_lt_ten n n d (List.mem_reverse.mp hd)) hl h
  have h2 : digitsLE n n = l.reverse := by
    rw [← h1, List.reverse_reverse]
  rw [← digitsLE_eq_digits n n le_rfl, h2]

theorem natDec_inj {m n : Nat} (h : natDec m = natDec n) : m = n := by
  have hdata := congrArg String.data h
  by_cases hm : m = 0 <;> by_cases hn : n = 0
  · rw [hm, hn]
  · exfalso
    rw [hm, show (natDec 0).data = [Nat.digitChar 0] from rfl, natDec_data_of_ne hn]
      at hdata
    have hd := digits_of_rev_map_eq (l := [0]) (by simp) hdata.symm
    have := congrArg (Nat.ofDigits 10) hd
    rw [Nat.ofDigits_digits] at this
    simp [Nat.ofDigits] at this
    exact hn this
  · exfalso
    rw [hn, show (natDec 0).data = [Nat.digitChar 0] from rfl, natDec_data_of_ne hm]
      at hdata
    have hd := digits_of_rev_map_eq (l := [0]) (by simp) hdata
    have := congrArg (Nat.ofDigits 10) hd
    rw [Nat.ofDigits_digits] at this
    simp [Nat.ofDigits] at this
    exact hm this
  · rw [natDec_data_of_ne hm, natDec_data_of_ne hn] at hdata
    have hd := digits_of_rev_map_eq
      (l := (digitsLE n n).reverse)
      (fun d hdm => digitsLE_lt_ten n n d (List.mem_reverse.mp hdm)) hdata
    rw [List.reverse_reverse, digitsLE_eq_digits n n le_rfl] at hd
    have := congrArg (Nat.ofDigits 10) hd
    rwa [Nat.ofDigits_digits, Nat.ofDigits_digits] at this

theorem underscore_split : ∀ (a c b d : List Char), '_' ∉ a → '_' ∉ c →
    a ++ '_' :: b = c ++ '_' :: d → a = c ∧ b = d := by
  intro a
  induction a with
  | nil =>
    intro c b d _ hc h
    cases c with
    | nil =>
      simp only [List.nil_append, List.cons.injEq] at h
      exact ⟨rfl, h.2⟩
    | cons x xs =>
      simp only [List.nil_append, List.cons_append, List.cons.injEq] at h
      exact absurd (by simp [← h.1]) hc
  | cons y ys ih =>
    intro c b d ha hc h
    cases c with
    | nil =>
      simp only [List.cons_append, List.nil_append, List.cons.injEq] at h
      exact absurd (by simp [h.1]) ha
    | cons x xs =>
      simp only [List.cons_append, List.cons.injEq] at h
      obtain ⟨hyx, ht⟩ := h
      have hrec := ih xs b d (fun hm => ha (by simp [hm])) (fun hm => hc (by simp [hm])) ht
      exact ⟨by rw [hyx, hrec.1], hrec.2⟩

theorem natDec_no_underscore (n : Nat) : '_' ∉ (natDec n).data := by
  intro hmem
  exact absurd rfl (natDec_chars_tame hmem).2

theorem synthId_data (i t : Nat) :
    (synthId i t).data = "shift_".data ++ ((natDec i).data ++ '_' :: (natDec t).data) := by
  show (("shift_" ++ natDec i ++ "_") ++ natDec t).data = _
  rw [strData_app, strData_app, strData_app]
  simp [List.append_assoc]

theorem synthId_inj_index {i t j u : Nat} (h : synthId i t = synthId j u) : i = j := by
  have hd := congrArg String.data h
  rw [synthId_data, synthId_data] at hd
  have h1 := List.append_cancel_left hd
  have h2 := underscore_split _ _ _ _ (natDec_no_underscore i) (natDec_no_underscore j) h1
  exact natDec_inj (String.ext h2.1)

theorem synthId_ne_empty (i t : Nat) : synthId i t ≠ "" := by
  intro h
  have hd := congrArg String.data h
  rw [synthId_data, show ("" : String).data = [] from rfl] at hd
  exact absurd (List.append_eq_nil.mp hd).1 (by decide)

theorem assignIdsFrom_map_id (now : Nat → Nat) : ∀ (l : List RawShift) (i : Nat),
    (∀ r ∈ l, r.id = none) →
    (assignIdsFrom now i l).map Shift.id =
      (List.range' i l.length).map (fun j => synthId j (now j)) := by
  intro l
  induction l with
  | nil => intro i _; rfl
  | cons r rs ih =>
    intro i h
    have hr : r.id = none := h r (by simp)
    simp [assignIdsFrom, hr, jsOr, List.range'_succ,
      ih (i + 1) (fun x hx => h x (by simp [hx]))]

/-- Claim C5: in a batch whose records all arrive without an id, every normalized
record receives a non-empty synthesized id and the ids are pairwise distinct within
the batch. -/
theorem missing_ids_distinct (l : List RawShift) (now : Nat → Nat)
    (h : ∀ r ∈ l, r.id = none) :
    (∀ s ∈ assignIds now l, s.id ≠ "") ∧
    ((assignIds now l).map Shift.id).Nodup := by
  have hmap : (assignIds now l).map Shift.id =
      (List.range' 0 l.length).map (fun j => synthId j (now j)) :=
    assignIdsFrom_map_id now l 0 h
  constructor
  · intro s hs hempty
    have hmem : s.id ∈ (assignIds now l).map Shift.id := List.mem_map_of_mem _ hs
    rw [hmap] at hmem
    simp only [List.mem_map] at hmem
    obtain ⟨j, _, hj⟩ := hmem
    exact synthId_ne_empty j (now j) (hj.trans hempty)
  · rw [hmap]
    refine List.Nodup.map_on ?_ (List.nodup_range' 0 l.length)
    intro x _ y _ hxy
    exact synthId_inj_index hxy

/-- Witness for claim C5 on a batch of two id-less records. -/
theorem missing_ids_distinct_witness :
    (∀ r ∈ [(⟨none, sampleFields⟩ : RawShift), ⟨none, sampleFields⟩], r.id = none) ∧
    ((∀ s ∈ assignIds (fun _ => 42) [(⟨none, sampleFields⟩ : RawShift),
        ⟨none, sampleFields⟩], s.id ≠ "") ∧
      ((assignIds (fun _ => 42) [(⟨none, sampleFields⟩ : RawShift),
        ⟨none, sampleFields⟩]).map Shift.id).Nodup) :=
  ⟨by decide, missing_ids_distinct _ _ (by decide)⟩

/-- Claim C2, evaluated at a blocked permission: with every permission check and
request resolving to blocked, `getLocationWithRetry` with the default bound 3 performs
three attempts and three permission requests before failing, and the failure reason is
"Location permission denied", not "permission blocked". -/
theorem blocked_permission_retry_trace :
    (getLocationWithRetry (fun _ => ⟨.blocked, .blocked, .err 1⟩) 3).attempts = 3 ∧
    (getLocationWithRetry (fun _ => ⟨.blocked, .blocked, .err 1⟩) 3).prompts = 3 ∧
    (getLocationWithRetry (fun _ => ⟨.blocked, .blocked, .err 1⟩) 3).result.success
      = false ∧
    (getLocationWithRetry (fun _ => ⟨.blocked, .blocked, .err 1⟩) 3).result.error =
      some "Location permission denied" ∧
    (getLocationWithRetry (fun _ => ⟨.blocked, .blocked, .err 1⟩) 3).delays =
      [1000, 2000] :=
  ⟨rfl, rfl, rfl, rfl, rfl⟩

/-- Claim C3, counterexample: with the default bound of 3 attempts all failing with a
timeout, the delays inserted between attempts are 1000 ms and 2000 ms — two delays,
not the claimed sequence 1000, 2000, 4000. -/
theorem backoff_delays_two_not_three :
    (getLocationWithRetry (fun _ => ⟨.granted, .granted, .err 3⟩) 3).delays =
      [1000, 2000] ∧
    (getLocationWithRetry (fun _ => ⟨.granted, .granted, .err 3⟩) 3).delays ≠
      [1000, 2000, 4000] :=
  ⟨rfl, by decide⟩

/-- Claim C3 (amended): for the default bound of 3 attempts in which every attempt
fails, the loop inserts the strictly increasing doubling delays 1000 ms then 2000 ms
(one delay between consecutive attempts), performs exactly 3 attempts, and returns a
failure outcome. -/
theorem retry_exhaustion_backoff (envs : Nat → GeoEnv)
    (h : ∀ i, i < 3 → (getCurrentLocation (envs i)).1.success = false) :
    (getLocationWithRetry envs 3).result.success = false ∧
    (getLocationWithRetry envs 3).delays = [1000, 2000] ∧
    List.Chain' (· < ·) (getLocationWithRetry envs 3).delays ∧
    (getLocationWithRetry envs 3).attempts = 3 := by
  have h0 := h 0 (by norm_num)
  have h1 := h 1 (by norm_num)
  have h2 := h 2 (by norm_num)
  have hd : (getLocationWithRetry envs 3).delays = [1000, 2000] := by
    simp [getLocationWithRetry, retryGo, h0, h1, h2]
  refine ⟨?_, hd, ?_, ?_⟩
  · simp [getLocationWithRetry, retryGo, h0, h1, h2]
  · rw [hd]
    norm_num [List.chain'_cons]
  · simp [getLocationWithRetry, retryGo, h0, h1, h2]

/-- Witness for claim C3's amended statement: every attempt times out. -/
theorem retry_exhaustion_backoff_witness :
    (∀ i, i < 3 →
      (getCurrentLocation ((fun _ => (⟨.granted, .granted, .err 3⟩ : GeoEnv)) i)).1.success
        = false) ∧
    ((getLocationWithRetry (fun _ => ⟨.granted, .granted, .err 3⟩) 3).result.success
        = false ∧
      (getLocationWithRetry (fun _ => ⟨.granted, .granted, .err 3⟩) 3).delays =
        [1000, 2000] ∧
      List.Chain' (· < ·)
        (getLocationWithRetry (fun _ => ⟨.granted, .granted, .err 3⟩) 3).delays ∧
      (getLocationWithRetry (fun _ => ⟨.granted, .granted, .err 3⟩) 3).attempts = 3) :=
  ⟨by decide, retry_exhaustion_backoff _ (by decide)⟩

theorem haversineA_symm (c1 c2 : LocationCoordinates) :
    haversineA c1 c2 = haversineA c2 c1 := by
  have key : ∀ x y : ℝ, Real.sin (toRad (x - y) / 2) * Real.sin (toRad (x - y) / 2) =
      Real.sin (toRad (y - x) / 2) * Real.sin (toRad (y - x) / 2) := by
    intro x y
    have hx : toRad (x - y) / 2 = -(toRad (y - x) / 2) := by
      simp only [toRad]
      ring
    rw [hx, Real.sin_neg]
    ring
  simp only [haversineA]
  rw [key c2.latitude c1.latitude, key c2.longitude c1.longitude]
  ring

/-- Claim C9: for valid coordinate pairs, the Haversine distance computation is
symmetric in its two arguments. -/
theorem calculateDistance_symm (A B : LocationCoordinates)
    (_hA : isValidCoordinates A) (_hB : isValidCoordinates B) :
    calculateDistance A B = calculateDistance B A := by
  unfold calculateDistance
  rw [haversineA_symm]

/-- Witness for claim C9 on the equator point and a mid-latitude point. -/
theorem calculateDistance_symm_witness :
    isValidCoordinates ⟨0, 0⟩ ∧ isValidCoordinates ⟨45, 90⟩ ∧
    calculateDistance ⟨0, 0⟩ ⟨45, 90⟩ = calculateDistance ⟨45, 90⟩ ⟨0, 0⟩ :=
  ⟨by norm_num [isValidCoordinates], by norm_num [isValidCoordinates],
    calculateDistance_symm ⟨0, 0⟩ ⟨45, 90⟩
      (by norm_num [isValidCoordinates]) (by norm_num [isValidCoordinates])⟩

end WorkingHands
